import Mathlib

/-!
A shallow embedding of the structured-output engine of the pev toolkit:
the format registry, the document/scope controller (`src/output.c`) and
the CSV plugin (`src/plugins/csv.c`), together with proofs of the
specified properties.

Modelling conventions:
* C strings that may be `NULL` become `Option String`; non-null C strings
  become `String`.
* `assert(...)` (assertions enabled, `NDEBUG` not defined) and `abort()`
  are both modelled as the fatal outcome `Except.error ()`.
* The controller's global variables (`g_is_document_open`, `g_format`,
  `g_scope_stack`) become an explicit `OutputState` record threaded
  through the operations.
* `stack.h` is not among the sources; the scope stack is modelled from
  the spec as an unbounded LIFO sequence (spec section 3: "scope_stack:
  ordered sequence of scope names"), so an allocation/capacity failure of
  a push cannot occur in the model.
-/

namespace Pev

/-! ## CSV entity table (`src/plugins/csv.c`, `g_entities`)

The C array `entity_t g_entities[255]` has exactly two non-NULL entries:
index 10 (line feed) maps to the two characters backslash-`n`, and
index 34 (double quote) maps to two double-quote characters.  It is
translated as a function from byte value to optional replacement. -/

def g_entities (b : Nat) : Option String :=
  if b = 10 then some "\\n"
  else if b = 34 then some "\"\""
  else none

/-- Modelled from the spec (section 3, Entity Table): the replacement one
byte receives under an entity table — its mapped replacement string, or
itself when the table has no mapping for it. -/
def entitySubst (table : Nat → Option String) (c : Char) : String :=
  match table c.toNat with
  | some r => r
  | none => String.singleton c

/-- Modelled from the spec: `escape_ex` lives in `output_plugin.c`, which is
not among the given sources.  Per spec section 3 (Entity Table) and 4.3, it
applies the entity table byte-wise to the input; a byte with no mapping
passes through unchanged. -/
def escape_ex (s : String) (table : Nat → Option String) : String :=
  String.join (s.toList.map (entitySubst table))

/-- Modelled from the spec: `escape_ex_quoted` lives in `output_plugin.c`,
which is not among the given sources.  Per spec section 4.3, it applies the
entity-table substitutions and wraps the result in a leading and a trailing
double quote. -/
def escape_ex_quoted (s : String) (table : Nat → Option String) : String :=
  "\"" ++ escape_ex s table ++ "\""

/-- `strpbrk(str, "\n\",") != NULL`: does the string contain a line break,
a double quote, or a comma? -/
def hasCsvSpecialChar (s : String) : Bool :=
  s.toList.any (fun c => c = '\n' || c = '"' || c = ',')

/-- `escape_csv` from `src/plugins/csv.c`: `NULL` maps to `NULL`; a string
containing a line break, double quote or comma is escaped and enclosed in
double quotes (`escape_ex_quoted`), any other string is only escaped
(`escape_ex`).  The dispatch on `format->entities_table` is specialised to
the CSV table `g_entities`, the only table the plugin ever passes. -/
def escape_csv (str : Option String) : Option String :=
  match str with
  | none => none
  | some s =>
    if hasCsvSpecialChar s then
      some (escape_ex_quoted s g_entities)
    else
      some (escape_ex s g_entities)

/-! ### Spec-side restatement of the CSV escaping contract (section 4.3),
written from the spec's words to be compared with `escape_csv` above. -/

/-- Spec section 4.3, per character: every double-quote doubled, newline
replaced by the two-character sequence backslash-`n`, everything else kept. -/
def specCsvSubst (c : Char) : String :=
  if c = '"' then "\"\""
  else if c = '\n' then "\\n"
  else String.singleton c

/-- Spec section 4.3: `escape(None) = None`; if the input contains a
newline, double-quote, or comma, the output is the substituted input
wrapped in a leading and trailing double quote (the wrap decision made on
the original unescaped content); otherwise only the substitutions apply. -/
def specEscapeCsv (str : Option String) : Option String :=
  match str with
  | none => none
  | some s =>
    let subst := String.join (s.toList.map specCsvSubst)
    if s.toList.any (fun c => c = '\n' || c = '"' || c = ',') then
      some ("\"" ++ subst ++ "\"")
    else
      some subst

/-! ## Render events and format descriptors (`output_plugin.h` contract) -/

/-- The closed enumeration `output_type_e` of render event types. -/
inductive OutputType where
  | documentOpen
  | documentClose
  | scopeOpen
  | scopeClose
  | attribute

/-- One render event as dispatched to a format's `output_fn`: event type,
computed nesting level, optional key and optional value. -/
structure Event where
  type : OutputType
  level : Nat
  key : Option String
  value : Option String

/-- The format descriptor `format_t`: identity, name, render callback,
escape callback and entity table.  In C the callbacks also receive the
descriptor itself, used only to reach `entities_table` and `escape_fn`;
here each plugin's callbacks close over their own table instead, which
avoids a recursive structure. -/
structure Format where
  id : Nat
  name : String
  output_fn : OutputType → Nat → Option String → Option String → String
  escape_fn : Option String → Option String
  entities_table : Nat → Option String

/-! ## CSV render callback (`src/plugins/csv.c`, `to_format`) -/

/-- `printf("%s", p)` on an optional string: glibc prints `(null)` for a
null pointer.  No reachable call in the proofs below hits the `none` case
(the CSV plugin's escape preserves presence). -/
def printfStr : Option String → String
  | none => "(null)"
  | some s => s

/-- `to_format` from `src/plugins/csv.c`: the bytes printed for one event.
`level` is ignored (`(void)level`).  Key and value are first escaped with
the plugin's `escape_fn` (`escape_csv` over the CSV entity table). -/
def to_format (type : OutputType) (level : Nat)
    (key value : Option String) : String :=
  let escaped_key := escape_csv key
  let escaped_value := escape_csv value
  let _ := level
  match type with
  | .documentOpen => ""
  | .documentClose => ""
  | .scopeOpen => "\n" ++ printfStr escaped_key ++ "\n"
  | .scopeClose => "\n"
  | .attribute =>
    match key, value with
    | some _, some _ => printfStr escaped_key ++ "," ++ printfStr escaped_value ++ "\n"
    | some _, none => "\n" ++ printfStr escaped_key ++ "\n"
    | none, some _ => "," ++ printfStr escaped_value ++ "\n"
    | none, none => ""

/-- The CSV plugin's descriptor `g_format` (`FORMAT_ID 1`, name `"csv"`). -/
def csvFormat : Format :=
  { id := 1
    name := "csv"
    output_fn := to_format
    escape_fn := escape_csv
    entities_table := g_entities }

/-! ## Format registry (`src/output.c`)

`g_registered_formats` is a singly-linked list with head insertion
(`SLIST_INSERT_HEAD`); it is modelled as a `List Format` whose head is the
most recently registered descriptor. -/

/-- `FORMAT_ID_FOR_TEXT` from `src/output.c` line 34. -/
def FORMAT_ID_FOR_TEXT : Nat := 3

/-- `output_lookup_format_by_id`: first entry whose `id` matches, walking
the list from the head. -/
def output_lookup_format_by_id (reg : List Format) (id : Nat) : Option Format :=
  reg.find? (fun f => f.id == id)

/-- `output_plugin_register_format`: inserts the descriptor at the head of
the list.  The only C failure mode is `malloc` returning `NULL`, which has
no counterpart in the model. -/
def output_plugin_register_format (fmt : Format) (reg : List Format) : List Format :=
  fmt :: reg

/-- Removes the first entry whose `id` matches (the entry
`output_lookup_format_entry_by_id` finds, which `SLIST_REMOVE` unlinks). -/
def removeFirstById (reg : List Format) (id : Nat) : List Format :=
  match reg with
  | [] => []
  | f :: rest => if f.id == id then rest else f :: removeFirstById rest id

/-- `output_plugin_unregister_format`: looks the entry up by the
descriptor's `id`; a miss is a no-op, a hit unlinks that entry. -/
def output_plugin_unregister_format (fmt : Format) (reg : List Format) : List Format :=
  match output_lookup_format_by_id reg fmt.id with
  | none => reg
  | some _ => removeFirstById reg fmt.id

/-! ## Document/scope controller state (`src/output.c` globals) -/

/-- The controller's global state: `g_is_document_open`, `g_format`,
`g_scope_stack` (head of the list = top of the stack). -/
structure OutputState where
  isDocumentOpen : Bool
  format : Option Format
  scopeStack : List String

/-- The state at program start: `g_is_document_open = false`,
`g_format = NULL`, no stack yet. -/
def initialState : OutputState :=
  { isDocumentOpen := false, format := none, scopeStack := [] }

/-- `output_init`: binds `g_format` to the registered format with id
`FORMAT_ID_FOR_TEXT` (or `NULL` when none is registered) and allocates a
fresh empty scope stack. -/
def output_init (reg : List Format) (st : OutputState) : OutputState :=
  { st with
    format := output_lookup_format_by_id reg FORMAT_ID_FOR_TEXT
    scopeStack := [] }

/-- Result of one controller operation: `Except.error ()` is the fatal
outcome (a failed `assert` or an explicit `abort()`); on success, the list
of events dispatched to the bound format's `output_fn` plus the new state. -/
abbrev OpResult := Except Unit (List Event × OutputState)

/-- `output_open_document_with_name`: asserts a bound format, asserts no
document is open, emits `DOCUMENT_OPEN` at level 0 with the document name
as key, and sets `g_is_document_open`. -/
def output_open_document_with_name (name : Option String) (st : OutputState) : OpResult :=
  match st.format with
  | none => .error ()
  | some _ =>
    if st.isDocumentOpen then .error ()
    else .ok ([⟨.documentOpen, 0, name, none⟩],
              { st with isDocumentOpen := true })

/-- `output_close_document`: asserts a bound format, asserts a document is
open, emits `DOCUMENT_CLOSE` at level 0, and clears `g_is_document_open`. -/
def output_close_document (st : OutputState) : OpResult :=
  match st.format with
  | none => .error ()
  | some _ =>
    if st.isDocumentOpen then
      .ok ([⟨.documentClose, 0, none, none⟩],
           { st with isDocumentOpen := false })
    else .error ()

/-- `output_open_scope`: asserts a bound format, emits `SCOPE_OPEN` at
level `doc_level + scope_level` with the depth measured before the push,
then pushes the scope name. -/
def output_open_scope (name : String) (st : OutputState) : OpResult :=
  match st.format with
  | none => .error ()
  | some _ =>
    let doc_level := if st.isDocumentOpen then 1 else 0
    let scope_level := st.scopeStack.length
    .ok ([⟨.scopeOpen, doc_level + scope_level, some name, none⟩],
         { st with scopeStack := name :: st.scopeStack })

/-- `output_close_scope`: asserts a bound format; a pop of the empty stack
prints a diagnostic and aborts before any event is dispatched; otherwise
pops the most recent name and emits `SCOPE_CLOSE` at level
`doc_level + scope_level` with the depth measured after the pop. -/
def output_close_scope (st : OutputState) : OpResult :=
  match st.format with
  | none => .error ()
  | some _ =>
    match st.scopeStack with
    | [] => .error ()
    | top :: rest =>
      let doc_level := if st.isDocumentOpen then 1 else 0
      let scope_level := rest.length
      .ok ([⟨.scopeClose, doc_level + scope_level, some top, none⟩],
           { st with scopeStack := rest })

/-- `output_keyval`: asserts a bound format, then emits `ATTRIBUTE` at
level `doc_level + scope_level` with the given key and value; the state is
unchanged. -/
def output_keyval (key value : Option String) (st : OutputState) : OpResult :=
  match st.format with
  | none => .error ()
  | some _ =>
    let doc_level := if st.isDocumentOpen then 1 else 0
    let scope_level := st.scopeStack.length
    .ok ([⟨.attribute, doc_level + scope_level, key, value⟩], st)

/-- `output_set_format`: rebinds the active format, touching nothing else. -/
def output_set_format (fmt : Format) (st : OutputState) : OutputState :=
  { st with format := some fmt }

/-! ## Sequences of controller calls -/

/-- One controller API call. -/
inductive Call where
  | openDocument (name : Option String)
  | closeDocument
  | openScope (name : String)
  | closeScope
  | keyval (key value : Option String)

/-- Dispatch one call to the corresponding controller operation. -/
def step : Call → OutputState → OpResult
  | .openDocument name, st => output_open_document_with_name name st
  | .closeDocument, st => output_close_document st
  | .openScope name, st => output_open_scope name st
  | .closeScope, st => output_close_scope st
  | .keyval k v, st => output_keyval k v st

/-- Run a sequence of calls, accumulating the events dispatched to the
bound format in order.  A fatal call aborts the run: the events already
dispatched are kept (they were printed before the abort) and no later
call executes. -/
def run : List Call → OutputState → List Event × Except Unit OutputState
  | [], st => ([], .ok st)
  | c :: cs, st =>
    match step c st with
    | .error () => ([], .error ())
    | .ok (evs, st') => (evs ++ (run cs st').1, (run cs st').2)

/-- The bytes a format prints for a list of events, in dispatch order
(the controller calls `output_fn` synchronously per event). -/
def renderAll (f : Format) (evs : List Event) : String :=
  String.join (evs.map (fun e => f.output_fn e.type e.level e.key e.value))

/-! ## Scope-only call sequences and LIFO pairing -/

/-- A call that only manipulates the scope stack. -/
inductive ScopeCall where
  | openScope (name : String)
  | closeScope

/-- View a scope call as a controller call. -/
def ScopeCall.toCall : ScopeCall → Call
  | .openScope name => .openScope name
  | .closeScope => .closeScope

/-- Starting from stack depth `d`, no close in the sequence ever hits an
empty stack. -/
def scopeSafe : Nat → List ScopeCall → Bool
  | _, [] => true
  | d, .openScope _ :: rest => scopeSafe (d + 1) rest
  | d, .closeScope :: rest => decide (0 < d) && scopeSafe (d - 1) rest

/-- Stack depth after running the sequence from depth `d`. -/
def scopeDepth : Nat → List ScopeCall → Nat
  | d, [] => d
  | d, .openScope _ :: rest => scopeDepth (d + 1) rest
  | d, .closeScope :: rest => scopeDepth (d - 1) rest

/-- Well-paired (strict LIFO pairing) from the empty stack: every close
has a matching earlier open, and every open is eventually closed. -/
def balancedScopes (ops : List ScopeCall) : Bool :=
  scopeSafe 0 ops && decide (scopeDepth 0 ops = 0)

/-! ## `output_available_formats` (`src/output.c`) and `bsd_strlcat`

The output buffer is a fixed-size byte region, modelled as a `List Char`
of length `size` (`memset` fills it with NUL). -/

/-- The NUL byte. -/
def nulChar : Char := Char.ofNat 0

/-- `strlen` within a buffer: characters before the first NUL. -/
def cstrLen (buf : List Char) : Nat :=
  (buf.takeWhile (fun c => c != nulChar)).length

/-- The C string a buffer holds: its characters up to the first NUL. -/
def bufString (buf : List Char) : String :=
  String.mk (buf.takeWhile (fun c => c != nulChar))

/-- Modelled from the spec: `bsd_strlcat` lives in `compat/strlcat.h`,
which is not among the given sources; this is the documented BSD
`strlcat(dst, src, siz)` behaviour.  It appends `src` after the current
contents of `dst`, copying at most `siz - strlen(dst) - 1` characters and
NUL-terminating (unless `dst` was already unterminated within `siz`), and
returns `strlen(initial dst) + strlen(src)`. -/
def bsd_strlcat (buf : List Char) (src : String) (siz : Nat) : List Char × Nat :=
  let dlen := min (cstrLen buf) siz
  if siz - dlen = 0 then
    (buf, dlen + src.length)
  else
    let ncopy := min src.length (siz - dlen - 1)
    (buf.take dlen ++ src.toList.take ncopy ++ [nulChar] ++ buf.drop (dlen + ncopy + 1),
     dlen + src.length)

/-- The `SLIST_FOREACH` loop of `output_available_formats`, over the
registered names in collection order, threading the buffer, the running
`consumed` index, the `truncated` flag and the `total_available` count. -/
def availableFormatsLoop (names : List String) (buf : List Char) (size : Nat)
    (sep : Char) (consumed : Nat) (truncated : Bool) (total : Nat) :
    List Char × Nat × Nat :=
  match names with
  | [] => (buf, consumed, total)
  | name :: rest =>
    if truncated then
      availableFormatsLoop rest buf size sep consumed truncated (total + 1)
    else
      let (buf2, c2) := bsd_strlcat buf name size
      if c2 > size then
        availableFormatsLoop rest buf2 size sep c2 true (total + 1)
      else if c2 < size - 1 then
        availableFormatsLoop rest (buf2.set c2 sep) size sep (c2 + 1) truncated (total + 1)
      else
        availableFormatsLoop rest buf2 size sep c2 truncated (total + 1)

/-- `output_available_formats` on the list of registered names: zeroes the
buffer, appends each name followed by the separator, and finally writes a
NUL over the last separator (`buffer[consumed - 1] = '\0'`).  Returns the
final buffer and `total_available`.  (With an empty registry the final
write would index `(size_t)(0 - 1)` in C, undefined; the model clamps at
0, a case no theorem below relies on.) -/
def output_available_formats_names (names : List String) (size : Nat) (sep : Char) :
    List Char × Nat :=
  let buf0 := List.replicate size nulChar
  let (buf, consumed, total) := availableFormatsLoop names buf0 size sep 0 false 0
  (buf.set (consumed - 1) nulChar, total)

/-- `output_available_formats` over a registry: iterates the registered
descriptors in collection order, using each entry's `name`. -/
def output_available_formats (reg : List Format) (size : Nat) (sep : Char) :
    List Char × Nat :=
  output_available_formats_names (reg.map (fun f => f.name)) size sep

/-! ## The spec's end-to-end example (section 8) -/

/-- The call sequence of the spec's end-to-end example: open a document,
open scope `"Header"`, emit attribute `("Magic", "MZ")`, close the scope,
close the document. -/
def endToEndCalls : List Call :=
  [.openDocument none, .openScope "Header",
   .keyval (some "Magic") (some "MZ"), .closeScope, .closeDocument]

/-- The controller state with the CSV plugin registered and selected
(`output_set_format` after `output_init`; the id-3 lookup in `output_init`
misses, so the CSV descriptor is bound explicitly, as a caller selecting
`csv` by name would). -/
def csvBoundState : OutputState :=
  output_set_format csvFormat (output_init [csvFormat] initialState)

/-! ## Fixtures

Minimal descriptors used to instantiate theorems at concrete registries.
Only the CSV plugin is among the sources; `xmlFixture` and `textFixture`
carry the names and ids the other plugins register, with trivial
callbacks, and model nothing beyond that. -/

/-- A descriptor with the text format's id (`FORMAT_ID_FOR_TEXT`) and
name; its callbacks are placeholders (the text plugin is not among the
given sources, and no theorem relies on them). -/
def textFixture : Format :=
  { id := FORMAT_ID_FOR_TEXT
    name := "text"
    output_fn := fun _ _ _ _ => ""
    escape_fn := fun s => s
    entities_table := fun _ => none }

/-- A descriptor with the xml plugin's name; its callbacks are
placeholders (the xml plugin is not among the given sources, and no
theorem relies on them). -/
def xmlFixture : Format :=
  { id := 2
    name := "xml"
    output_fn := fun _ _ _ _ => ""
    escape_fn := fun s => s
    entities_table := fun _ => none }

/-! ## Helper lemmas -/

lemma char_toNat_inj (c d : Char) (h : c.toNat = d.toNat) : c = d := by
  apply Char.ext
  exact UInt32.ext h

lemma subst_bridge (c : Char) : entitySubst g_entities c = specCsvSubst c := by
  unfold entitySubst g_entities specCsvSubst
  by_cases h1 : c = '"'
  · subst h1; rfl
  · by_cases h2 : c = '\n'
    · subst h2; rfl
    · have n1 : c.toNat ≠ 34 := fun h => h1 (char_toNat_inj c '"' (by simpa using h))
      have n2 : c.toNat ≠ 10 := fun h => h2 (char_toNat_inj c '\n' (by simpa using h))
      simp [n1, n2, h1, h2]

lemma escape_ex_eq_spec (s : String) :
    escape_ex s g_entities = String.join (s.toList.map specCsvSubst) := by
  unfold escape_ex
  rw [funext subst_bridge]

lemma run_cons_ok {c : Call} {cs : List Call} {st : OutputState} {evs : List Event}
    {st' : OutputState} (h : step c st = .ok (evs, st')) :
    run (c :: cs) st = (evs ++ (run cs st').1, (run cs st').2) := by
  simp [run, h]

lemma run_cons_err {c : Call} {cs : List Call} {st : OutputState}
    (h : step c st = .error ()) :
    run (c :: cs) st = ([], .error ()) := by
  simp [run, h]

lemma run_append (xs ys : List Call) (st : OutputState) :
    run (xs ++ ys) st =
      match (run xs st).2 with
      | .ok st' => ((run xs st).1 ++ (run ys st').1, (run ys st').2)
      | .error _ => ((run xs st).1, .error ()) := by
  induction xs generalizing st with
  | nil => simp [run]
  | cons c cs ih =>
    cases hstep : step c st with
    | error e =>
      cases e
      rw [List.cons_append, run_cons_err hstep, run_cons_err hstep]
    | ok p =>
      obtain ⟨evs, st'⟩ := p
      rw [List.cons_append, run_cons_ok hstep, run_cons_ok hstep, ih st']
      cases hr : (run cs st').2 with
      | ok st'' => simp
      | error e => cases e; simp

/-- Running a scope-call sequence that never over-closes, from a state with
a bound format, succeeds, preserves the bound format and the document flag,
and leaves the stack at the predicted depth. -/
lemma run_scopes_ok (ops : List ScopeCall) :
    ∀ (st : OutputState) (f : Format), st.format = some f →
    scopeSafe st.scopeStack.length ops = true →
    ∃ st', (run (ops.map ScopeCall.toCall) st).2 = .ok st'
      ∧ st'.format = some f
      ∧ st'.isDocumentOpen = st.isDocumentOpen
      ∧ st'.scopeStack.length = scopeDepth st.scopeStack.length ops := by
  induction ops with
  | nil =>
    intro st f hf _
    exact ⟨st, rfl, hf, rfl, rfl⟩
  | cons c rest ih =>
    intro st f hf hsafe
    cases c with
    | openScope name =>
      have hstep : step (ScopeCall.toCall (.openScope name)) st =
          .ok ([⟨.scopeOpen, (if st.isDocumentOpen then 1 else 0) + st.scopeStack.length,
                some name, none⟩],
               { st with scopeStack := name :: st.scopeStack }) := by
        simp [ScopeCall.toCall, step, output_open_scope, hf]
      rw [List.map_cons, run_cons_ok hstep]
      have hsafe' : scopeSafe ({ st with scopeStack := name :: st.scopeStack } :
          OutputState).scopeStack.length rest = true := by
        simpa [scopeSafe] using hsafe
      obtain ⟨st', h1, h2, h3, h4⟩ :=
        ih { st with scopeStack := name :: st.scopeStack } f hf hsafe'
      exact ⟨st', h1, h2, h3, by simpa [scopeDepth] using h4⟩
    | closeScope =>
      simp only [scopeSafe, Bool.and_eq_true, decide_eq_true_eq] at hsafe
      obtain ⟨hpos, hsafe'⟩ := hsafe
      obtain ⟨top, tail, hstack⟩ : ∃ top tail, st.scopeStack = top :: tail := by
        cases hs : st.scopeStack with
        | nil => rw [hs] at hpos; simp at hpos
        | cons a l => exact ⟨a, l, rfl⟩
      have hstep : step (ScopeCall.toCall .closeScope) st =
          .ok ([⟨.scopeClose, (if st.isDocumentOpen then 1 else 0) + tail.length,
                some top, none⟩],
               { st with scopeStack := tail }) := by
        simp [ScopeCall.toCall, step, output_close_scope, hf, hstack]
      rw [List.map_cons, run_cons_ok hstep]
      have hlen : ({ st with scopeStack := tail } : OutputState).scopeStack.length
          = st.scopeStack.length - 1 := by simp [hstack]
      have hsafe'' : scopeSafe ({ st with scopeStack := tail } :
          OutputState).scopeStack.length rest = true := by
        rw [hlen]; exact hsafe'
      obtain ⟨st', h1, h2, h3, h4⟩ := ih { st with scopeStack := tail } f hf hsafe''
      refine ⟨st', h1, h2, h3, ?_⟩
      rw [h4, hlen]
      simp [scopeDepth]

lemma run_append_ok {xs ys : List Call} {st st' : OutputState}
    (h : (run xs st).2 = .ok st') :
    run (xs ++ ys) st = ((run xs st).1 ++ (run ys st').1, (run ys st').2) := by
  have haux := run_append xs ys st
  rw [h] at haux
  simpa using haux

/-! ## Claim theorems -/

/-- Claim C1: for every sequence of scope calls after `output_init` with a
format bound, in which every `close_scope` is well-paired with a preceding
`open_scope` (strict LIFO pairing), the run raises no fatal condition and
the scope stack returns to empty, regardless of the nesting depth
reached. -/
theorem balanced_scopes_safe (ops : List ScopeCall) (reg : List Format) (f : Format)
    (hf : output_lookup_format_by_id reg FORMAT_ID_FOR_TEXT = some f)
    (hbal : balancedScopes ops = true) :
    ∃ st', (run (ops.map ScopeCall.toCall) (output_init reg initialState)).2 = .ok st'
      ∧ st'.scopeStack = [] := by
  have hfmt : (output_init reg initialState).format = some f := by
    simp [output_init, hf]
  have hstack : (output_init reg initialState).scopeStack = [] := rfl
  unfold balancedScopes at hbal
  simp only [Bool.and_eq_true, decide_eq_true_eq] at hbal
  obtain ⟨hsafe, hdepth⟩ := hbal
  obtain ⟨st', h1, _, _, h4⟩ := run_scopes_ok ops (output_init reg initialState) f hfmt
    (by rw [hstack]; exact hsafe)
  refine ⟨st', h1, ?_⟩
  rw [hstack] at h4
  simp only [List.length_nil] at h4
  rw [hdepth] at h4
  exact List.length_eq_zero.mp h4

/-- Claim C1, witness: the well-paired sequence open `a`, open `b`, close,
close runs without a fatal condition and empties the stack. -/
theorem balanced_scopes_safe_witness :
    ∃ st', (run ([ScopeCall.openScope "a", ScopeCall.openScope "b",
        ScopeCall.closeScope, ScopeCall.closeScope].map ScopeCall.toCall)
        (output_init [textFixture] initialState)).2 = .ok st'
      ∧ st'.scopeStack = [] :=
  balanced_scopes_safe [ScopeCall.openScope "a", ScopeCall.openScope "b",
    ScopeCall.closeScope, ScopeCall.closeScope] [textFixture] textFixture rfl (by decide)

/-- Claim C2: the CSV escape maps null to null; for every string the
result agrees with the spec's description (substitutions applied, the
quote-wrap decided on the original content); and the three concrete
examples hold. -/
theorem csv_escape_contract :
    escape_csv none = none
    ∧ (∀ s : String, escape_csv (some s) = specEscapeCsv (some s))
    ∧ escape_csv (some "a,b") = some "\"a,b\""
    ∧ escape_csv (some "plain") = some "plain"
    ∧ escape_csv (some "he said \"hi\"") = some "\"he said \"\"hi\"\"\"" := by
  refine ⟨rfl, ?_, rfl, rfl, rfl⟩
  intro s
  unfold escape_csv specEscapeCsv hasCsvSpecialChar escape_ex_quoted
  by_cases h : s.toList.any (fun c => c = '\n' || c = '"' || c = ',')
  · simp [h, escape_ex_eq_spec]
  · simp [h, escape_ex_eq_spec]

/-- Claim C3: the CSV render callback prints nothing for document
open/close; a blank line, the escaped scope name and a newline for scope
open; a blank line for scope close; and the three attribute layouts per
key/value presence; and the end-to-end example sequence with CSV bound
produces exactly the bytes blank line, `Header`, newline, `Magic,MZ`,
newline, blank line. -/
theorem csv_render_contract :
    (∀ (l : Nat) (k v : Option String),
      to_format .documentOpen l k v = "" ∧ to_format .documentClose l k v = "")
    ∧ (∀ (l : Nat) (name : String) (v : Option String),
      to_format .scopeOpen l (some name) v
        = "\n" ++ printfStr (escape_csv (some name)) ++ "\n")
    ∧ (∀ (l : Nat) (k v : Option String), to_format .scopeClose l k v = "\n")
    ∧ (∀ (l : Nat) (k v : String),
      to_format .attribute l (some k) (some v)
        = printfStr (escape_csv (some k)) ++ "," ++ printfStr (escape_csv (some v)) ++ "\n")
    ∧ (∀ (l : Nat) (k : String),
      to_format .attribute l (some k) none
        = "\n" ++ printfStr (escape_csv (some k)) ++ "\n")
    ∧ (∀ (l : Nat) (v : String),
      to_format .attribute l none (some v)
        = "," ++ printfStr (escape_csv (some v)) ++ "\n")
    ∧ (run endToEndCalls csvBoundState).2 = .ok ⟨false, some csvFormat, []⟩
    ∧ renderAll csvFormat (run endToEndCalls csvBoundState).1 = "\nHeader\nMagic,MZ\n\n" := by
  exact ⟨fun _ _ _ => ⟨rfl, rfl⟩, fun _ _ _ => rfl, fun _ _ _ => rfl,
    fun _ _ _ => rfl, fun _ _ => rfl, fun _ _ => rfl, rfl, rfl⟩

/-- Claim C4: `open_document` is fatal with no bound format or while a
document is open, and otherwise emits exactly one `DOCUMENT_OPEN` at level
0 with the document name as key and opens the document; `close_document`
is fatal while closed, and otherwise emits `DOCUMENT_CLOSE` at level 0 and
closes it, so the flag toggles exactly once per pair. -/
theorem document_state_machine :
    (∀ (name : Option String) (o : Bool) (stk : List String),
      output_open_document_with_name name ⟨o, none, stk⟩ = .error ())
    ∧ (∀ (name : Option String) (f : Format) (stk : List String),
      output_open_document_with_name name ⟨true, some f, stk⟩ = .error ())
    ∧ (∀ (name : Option String) (f : Format) (stk : List String),
      output_open_document_with_name name ⟨false, some f, stk⟩
        = .ok ([⟨.documentOpen, 0, name, none⟩], ⟨true, some f, stk⟩))
    ∧ (∀ (fOpt : Option Format) (stk : List String),
      output_close_document ⟨false, fOpt, stk⟩ = .error ())
    ∧ (∀ (f : Format) (stk : List String),
      output_close_document ⟨true, some f, stk⟩
        = .ok ([⟨.documentClose, 0, none, none⟩], ⟨false, some f, stk⟩)) := by
  refine ⟨fun _ _ _ => rfl, fun _ _ _ => rfl, fun _ _ _ => rfl, ?_, fun _ _ => rfl⟩
  intro fOpt stk
  cases fOpt <;> rfl

/-- Claim C5: with a format bound, `open_scope` emits `SCOPE_OPEN` at
level doc-level plus the depth before the push, and `close_scope` emits
`SCOPE_CLOSE` at doc-level plus the depth after the pop; with a document
open and no scopes both events carry level 1. -/
theorem scope_level_contract :
    (∀ (name : String) (f : Format) (o : Bool) (stk : List String),
      output_open_scope name ⟨o, some f, stk⟩
        = .ok ([⟨.scopeOpen, (if o then 1 else 0) + stk.length, some name, none⟩],
               ⟨o, some f, name :: stk⟩))
    ∧ (∀ (f : Format) (o : Bool) (top : String) (rest : List String),
      output_close_scope ⟨o, some f, top :: rest⟩
        = .ok ([⟨.scopeClose, (if o then 1 else 0) + rest.length, some top, none⟩],
               ⟨o, some f, rest⟩))
    ∧ (∀ (name : String) (f : Format),
      output_open_scope name ⟨true, some f, []⟩
        = .ok ([⟨.scopeOpen, 1, some name, none⟩], ⟨true, some f, [name]⟩)
      ∧ output_close_scope ⟨true, some f, [name]⟩
        = .ok ([⟨.scopeClose, 1, some name, none⟩], ⟨true, some f, []⟩)) :=
  ⟨fun _ _ _ _ => rfl, fun _ _ _ _ => rfl, fun _ _ => ⟨rfl, rfl⟩⟩

/-- Claim C6: a sequence whose first unmatched `close_scope` follows a
safe, depth-zero preamble aborts exactly there: the events are exactly
those of the preamble (the offending `SCOPE_CLOSE` is never dispatched,
nothing after it runs) and the result is the single fatal outcome; and on
a non-empty stack `close_scope` pops exactly the most recently pushed
name. -/
theorem unmatched_close_aborts :
    (∀ (pre post : List ScopeCall) (reg : List Format) (f : Format),
      output_lookup_format_by_id reg FORMAT_ID_FOR_TEXT = some f →
      scopeSafe 0 pre = true →
      scopeDepth 0 pre = 0 →
      run ((pre ++ ScopeCall.closeScope :: post).map ScopeCall.toCall)
          (output_init reg initialState)
        = ((run (pre.map ScopeCall.toCall) (output_init reg initialState)).1, .error ()))
    ∧ (∀ (f : Format) (o : Bool) (top : String) (rest : List String),
      output_close_scope ⟨o, some f, top :: rest⟩
        = .ok ([⟨.scopeClose, (if o then 1 else 0) + rest.length, some top, none⟩],
               ⟨o, some f, rest⟩)) := by
  refine ⟨?_, fun _ _ _ _ => rfl⟩
  intro pre post reg f hf hsafe hdepth
  have hfmt : (output_init reg initialState).format = some f := by
    simp [output_init, hf]
  have hstack : (output_init reg initialState).scopeStack = [] := rfl
  obtain ⟨st', h1, h2, _, h4⟩ := run_scopes_ok pre (output_init reg initialState) f hfmt
    (by rw [hstack]; exact hsafe)
  have hempty : st'.scopeStack = [] := by
    rw [hstack] at h4
    simp only [List.length_nil] at h4
    rw [hdepth] at h4
    exact List.length_eq_zero.mp h4
  have hstep : step (ScopeCall.toCall .closeScope) st' = .error () := by
    simp [ScopeCall.toCall, step, output_close_scope, h2, hempty]
  rw [List.map_append, run_append_ok h1, List.map_cons, run_cons_err hstep]
  simp

/-- Claim C6, witness: after the balanced preamble open `a`, close, a third
`close_scope` aborts with exactly the preamble's events emitted. -/
theorem unmatched_close_aborts_witness :
    run (([ScopeCall.openScope "a", ScopeCall.closeScope]
        ++ ScopeCall.closeScope :: ([] : List ScopeCall)).map ScopeCall.toCall)
      (output_init [textFixture] initialState)
      = ((run ([ScopeCall.openScope "a", ScopeCall.closeScope].map ScopeCall.toCall)
          (output_init [textFixture] initialState)).1, .error ()) :=
  unmatched_close_aborts.1 [ScopeCall.openScope "a", ScopeCall.closeScope] []
    [textFixture] textFixture rfl (by decide) (by decide)

/-- Claim C7: for a descriptor whose id is not in the registry, register
followed by `find_by_id` returns that descriptor, and a subsequent
unregister makes the lookup miss. -/
theorem registry_roundtrip (reg : List Format) (d : Format)
    (h : d.id ∉ reg.map (fun f => f.id)) :
    output_lookup_format_by_id (output_plugin_register_format d reg) d.id = some d
    ∧ output_lookup_format_by_id
        (output_plugin_unregister_format d (output_plugin_register_format d reg)) d.id
      = none := by
  have hfind : output_lookup_format_by_id (d :: reg) d.id = some d := by
    simp [output_lookup_format_by_id, List.find?_cons_of_pos]
  have hnone : output_lookup_format_by_id reg d.id = none := by
    rw [output_lookup_format_by_id, List.find?_eq_none]
    intro f hfm
    simp only [beq_eq_false_iff_ne, ne_eq, Bool.not_eq_true, beq_iff_eq]
    intro hEq
    exact h (List.mem_map.mpr ⟨f, hfm, hEq⟩)
  refine ⟨hfind, ?_⟩
  show output_lookup_format_by_id (output_plugin_unregister_format d (d :: reg)) d.id = none
  unfold output_plugin_unregister_format
  rw [hfind]
  have hrm : removeFirstById (d :: reg) d.id = reg := by
    simp [removeFirstById]
  rw [hrm]
  exact hnone

/-- Claim C7, witness: registering the CSV descriptor into the empty
registry makes its id resolvable, and unregistering it removes it. -/
theorem registry_roundtrip_witness :
    output_lookup_format_by_id (output_plugin_register_format csvFormat []) csvFormat.id
      = some csvFormat
    ∧ output_lookup_format_by_id
        (output_plugin_unregister_format csvFormat
          (output_plugin_register_format csvFormat [])) csvFormat.id = none :=
  registry_roundtrip [] csvFormat (by simp)

/-- Claim C8, counterexample: with no format bound, `output_keyval` is the
fatal outcome (the `assert(g_format != NULL)` fires), not the silent no-op
the claim states. -/
theorem keyval_unbound_is_fatal :
    output_keyval (some "Magic") (some "MZ") initialState = .error ()
    ∧ output_keyval (some "Magic") (some "MZ") initialState
        ≠ .ok ([], initialState) :=
  ⟨rfl, fun hcontra => Except.noConfusion hcontra⟩

/-- Claim C8, amended: in every state with no format bound, calling
`output_keyval` hits the same assertion on the bound format as the
document operations and is fatal; no render callback is invoked and no
event is dispatched (the silent-no-op guard `if (g_format != NULL)` is
reachable only with assertions disabled). -/
theorem keyval_unbound_fatal :
    ∀ (k v : Option String) (o : Bool) (stk : List String),
      output_keyval k v ⟨o, none, stk⟩ = .error () :=
  fun _ _ _ _ => rfl

/-- Claim C9: with the registry holding exactly the formats named `csv`,
`xml` and `text` (in any collection order), `output_available_formats`
with separator `,` and a sufficiently large (16-byte) buffer yields the names joined by the
separator with no trailing separator, and reports 3 available formats. -/
theorem available_formats_join (reg : List Format)
    (h : reg.map (fun f => f.name) ∈
      ([["csv", "xml", "text"], ["csv", "text", "xml"], ["xml", "csv", "text"],
        ["xml", "text", "csv"], ["text", "csv", "xml"], ["text", "xml", "csv"]] :
        List (List String))) :
    bufString (output_available_formats reg 16 ',').1
      = String.intercalate "," (reg.map (fun f => f.name))
    ∧ (output_available_formats reg 16 ',').2 = 3 := by
  unfold output_available_formats
  simp only [List.mem_cons, List.not_mem_nil, or_false] at h
  rcases h with h | h | h | h | h | h <;> rw [h] <;> exact ⟨rfl, rfl⟩

/-- Claim C9, witness: the registry holding `csv`, `xml`, `text` in that
collection order joins to `csv,xml,text`. -/
theorem available_formats_join_witness :
    bufString (output_available_formats [csvFormat, xmlFixture, textFixture] 16 ',').1
      = String.intercalate ","
          ([csvFormat, xmlFixture, textFixture].map (fun f => f.name))
    ∧ (output_available_formats [csvFormat, xmlFixture, textFixture] 16 ',').2 = 3 :=
  available_formats_join [csvFormat, xmlFixture, textFixture] (by decide)

/-- Claim C10: `output_init` binds the active format to the registered
descriptor with id `FORMAT_ID_FOR_TEXT` (3) when one is registered and
leaves it unbound otherwise, with no explicit selection by the caller. -/
theorem init_binds_text_format (reg : List Format) (st : OutputState) :
    (output_init reg st).format = output_lookup_format_by_id reg FORMAT_ID_FOR_TEXT
    ∧ (∀ f, output_lookup_format_by_id reg FORMAT_ID_FOR_TEXT = some f →
        f ∈ reg ∧ f.id = FORMAT_ID_FOR_TEXT)
    ∧ ((∃ f, f ∈ reg ∧ f.id = FORMAT_ID_FOR_TEXT) →
        ∃ f, (output_init reg st).format = some f ∧ f ∈ reg ∧ f.id = FORMAT_ID_FOR_TEXT)
    ∧ ((∀ f ∈ reg, f.id ≠ FORMAT_ID_FOR_TEXT) → (output_init reg st).format = none) := by
  refine ⟨rfl, ?_, ?_, ?_⟩
  · intro f hf
    refine ⟨List.mem_of_find?_eq_some hf, ?_⟩
    have hp := List.find?_some hf
    simpa using hp
  · rintro ⟨g, hg, hgid⟩
    cases hfind : output_lookup_format_by_id reg FORMAT_ID_FOR_TEXT with
    | none =>
      rw [output_lookup_format_by_id, List.find?_eq_none] at hfind
      exact absurd (by simpa using hgid) (by simpa using hfind g hg)
    | some f =>
      refine ⟨f, by simp [output_init, hfind], List.mem_of_find?_eq_some hfind, ?_⟩
      have hp := List.find?_some hfind
      simpa using hp
  · intro hall
    show output_lookup_format_by_id reg FORMAT_ID_FOR_TEXT = none
    rw [output_lookup_format_by_id, List.find?_eq_none]
    intro f hf
    simpa using hall f hf

/-- Claim C10, witness: with only a text-id descriptor registered,
`output_init` binds it. -/
theorem init_binds_text_format_witness :
    ∃ f, (output_init [textFixture] initialState).format = some f
      ∧ f ∈ [textFixture] ∧ f.id = FORMAT_ID_FOR_TEXT :=
  (init_binds_text_format [textFixture] initialState).2.2.1 ⟨textFixture, by simp, rfl⟩

end Pev
